import Mathlib

set_option maxRecDepth 100000

/-!
Verification of the Inscopix real-time stream core (isx_stream.py).

The embedding models the three pieces of core logic:
 - isx_set_defaults: the geometry computation (pure integer arithmetic,
   Python floor division becomes Nat division; a Python ZeroDivisionError
   becomes the value none);
 - update_frame_stats: the frame-metadata decoder and sequence tracker.
   The decoder reads numpy uint16 scalars, and in numpy every arithmetic
   operation between a uint16 scalar and a small Python int stays in
   uint16 and wraps modulo 2^16 (value-based casting in numpy 1.x, NEP 50
   in 2.x; the left-shift ufunc truncates its C result to 16 bits).  The
   wrap is made explicit with the function u16 below.  A numpy IndexError
   raised while reading the header row is caught by the function's own
   try/except, which returns False and leaves the object state unchanged;
   this is modelled by the bounds guard in update_frame_stats;
 - get_frame: reads a captured frame, strips header/footer rows, updates
   the statistics, applies the sync-with-recording gate and the optional
   file write.  The cv2 capture and the file are externalized: the capture
   result is an input (none for a failed read, otherwise the frame viewed
   as rows of 16-bit samples), and the file write is an output component.
-/

namespace IsxStream

/-- Geometry record: the ten attributes set by isx_set_defaults. -/
structure IsxGeometry where
  stream_width : Nat
  stream_height : Nat
  frame_width : Nat
  frame_height : Nat
  frame_size_in_bytes : Nat
  isx_header_offset : Nat
  isx_footer_offset : Nat
  header_row_with_meta : Nat
  frame_counter_offset : Nat
  frame_record_flag_offset : Nat
deriving Repr, DecidableEq

/-- Sentinel sample value marking a frame captured during an isxd recording. -/
def frame_record_flag_value : Nat := 0xAD0

/-- Model of isx_set_defaults.  All divisions are Python floor divisions on
nonnegative integers, hence Nat division.  Python raises ZeroDivisionError
when ds_factor = 0 (at 1280 // ds_factor) or when the computed stream width
is 0 (at the division by stream_width); both are modelled as none.  The two
subtractions are nonnegative for every factor considered by the claims
(1258 - (1258 / w) * w and 1257 - (1258 / w) * w with w not dividing 1258),
so Nat subtraction agrees with Python there. -/
def isx_set_defaults (ds_factor : Nat) : Option IsxGeometry :=
  if ds_factor = 0 then none
  else
    let isx_default_width : Nat := 1280
    let isx_default_height : Nat := 800
    let isx_meta_header_length : Nat := 2
    let isx_meta_footer_length : Nat := 2
    let isx_meta_fc_offset : Nat := 1258
    let isx_meta_ad_flag_offset : Nat := 1257
    let size16 : Nat := 2
    let size32 : Nat := 4
    let isx_meta_header_bytes := isx_meta_header_length * isx_default_width * size16
    let isx_meta_footer_bytes := isx_meta_footer_length * isx_default_width * size16
    let isx_meta_total_bytes := isx_meta_header_bytes + isx_meta_footer_bytes
    let stream_width := isx_default_width / ds_factor
    if stream_width = 0 then none
    else
      let stream_height0 := isx_default_height / ds_factor
      let header_footer_line_count_16bit := isx_meta_total_bytes / stream_width
      let header_footer_line_count_32bit := header_footer_line_count_16bit * size16 / size32
      let stream_height := stream_height0 + header_footer_line_count_32bit
      let frame_width := stream_width * (size32 / size16)
      let frame_height := stream_height * (size32 / size16)
      let frame_size_in_bytes := frame_width * frame_height
      let isx_header_offset := isx_meta_header_bytes / (size16 * stream_width)
      let isx_footer_offset := stream_height0 + isx_header_offset
      let header_row_with_meta := isx_meta_fc_offset / stream_width
      let frame_counter_offset := isx_meta_fc_offset - header_row_with_meta * stream_width
      let frame_record_flag_offset := isx_meta_ad_flag_offset - header_row_with_meta * stream_width
      some ⟨stream_width, stream_height, frame_width, frame_height, frame_size_in_bytes,
        isx_header_offset, isx_footer_offset, header_row_with_meta, frame_counter_offset,
        frame_record_flag_offset⟩

/-- The geometry produced for the default downsample factor 2. -/
def g2 : IsxGeometry := ⟨640, 408, 1280, 816, 1044480, 4, 404, 1, 618, 617⟩

/-- The frame_statistics dictionary. -/
structure FrameStatistics where
  missing_frames_range : List Nat
  seq_id : Nat
  isxd_record : Bool
deriving Repr, DecidableEq

/-- Mutable state of the isx_scope object touched by update_frame_stats. -/
structure ScopeState where
  prev_frame_seq_id : Nat
  frame_statistics : FrameStatistics
deriving Repr, DecidableEq

/-- State after construction: prev_frame_seq_id = 0 and the initial
frame_statistics dictionary. -/
def initState : ScopeState := ⟨0, ⟨[], 0, false⟩⟩

/-- Truncation to numpy uint16. -/
def u16 (n : Nat) : Nat := n % 65536

/-- The counter expression of update_frame_stats as numpy evaluates it:
every sample is a uint16 scalar, each shift result is truncated to uint16,
and the bitwise ors stay in uint16.  Consequently the terms shifted by 16
and by 24 are always zero. -/
def numpyCounter (s0 s1 s2 s3 : Nat) : Nat :=
  ((s0 >>> 4) <<< 0) ||| u16 ((s1 >>> 4) <<< 8) ||| u16 ((s2 >>> 4) <<< 16) |||
    u16 ((s3 >>> 4) <<< 24)

/-- The counter formula as the spec states it, in exact unsigned 32-bit
arithmetic (for comparison with numpyCounter). -/
def specCounter (s0 s1 s2 s3 : Nat) : Nat :=
  (s0 >>> 4) ||| ((s1 >>> 4) <<< 8) ||| ((s2 >>> 4) <<< 16) ||| ((s3 >>> 4) <<< 24)

/-- Lines 224-232 of update_frame_stats: build the new frame_statistics
record from the previous sequence id and the decoded counter and flag, then
remember the counter.  prev + 1 and curr - 1 are numpy uint16 operations,
hence the u16 wraps (curr - 1 is u16 (curr + 65535) for curr < 65536). -/
def observe (prev : Nat) (curr : Nat) (isRec : Bool) : FrameStatistics × Nat :=
  if prev ≠ 0 ∧ curr ≠ u16 (prev + 1) then
    (⟨[u16 (prev + 1), u16 (curr + 65535)], curr, isRec⟩, curr)
  else
    (⟨[], curr, isRec⟩, curr)

/-- Model of update_frame_stats.  The five sample reads happen before any
state is assigned; if one of them is out of bounds, numpy raises IndexError,
the except branch returns False and the state is untouched (the else branch
of the guard).  Otherwise the counter and flag are decoded and the
statistics and prev_frame_seq_id are updated via observe. -/
def update_frame_stats (g : IsxGeometry) (st : ScopeState) (row : List Nat) :
    ScopeState × Bool :=
  if g.frame_counter_offset + 3 < row.length ∧ g.frame_record_flag_offset < row.length then
    let s0 := row.getD g.frame_counter_offset 0
    let s1 := row.getD (g.frame_counter_offset + 1) 0
    let s2 := row.getD (g.frame_counter_offset + 2) 0
    let s3 := row.getD (g.frame_counter_offset + 3) 0
    let curr := numpyCounter s0 s1 s2 s3
    let isRec := row.getD g.frame_record_flag_offset 0 == frame_record_flag_value
    let p := observe st.prev_frame_seq_id curr isRec
    (⟨p.2, p.1⟩, isRec)
  else
    (st, false)

/-- Configuration flags fixed at construction. -/
structure IsxConfig where
  sync_with_recording : Bool
  file_storage : Bool

/-- Model of get_frame.  The input capture is none when the cv2 read
returned no frame (ret false); otherwise it is the 8-bit buffer already
viewed as rows of 16-bit samples.  The result is the new state, the frame
written to the storage file (none when nothing is written), and the
returned pair (none models the Python return None, None).  Reading the
metadata row out of bounds raises IndexError, caught by the outer
try/except before any state is updated. -/
def get_frame (cfg : IsxConfig) (g : IsxGeometry) (st : ScopeState)
    (capture : Option (List (List Nat))) :
    ScopeState × Option (List (List Nat)) × Option (FrameStatistics × List (List Nat)) :=
  match capture with
  | none => (st, none, none)
  | some frame16 =>
    if g.header_row_with_meta < frame16.length then
      let frame := (frame16.drop g.isx_header_offset).take
        (g.isx_footer_offset - g.isx_header_offset)
      let row := frame16.getD g.header_row_with_meta []
      let p := update_frame_stats g st row
      if cfg.sync_with_recording && !p.2 then
        (p.1, none, none)
      else
        (p.1, if cfg.file_storage then some frame else none, some (p.1.frame_statistics, frame))
    else
      (st, none, none)

/-- Synthetic metadata row of stream_width samples, as the spec's round-trip
test describes it: byte i of the counter is stored as the 16-bit sample
(byte_i shifted left by 4) at counter_field_offset + i, the flag is stored
as the sample 0xAD0 at flag_field_offset when true, all other samples 0. -/
def encodeMetaRow (g : IsxGeometry) (counter : Nat) (flag : Bool) : List Nat :=
  (List.range g.stream_width).map (fun i =>
    if i = g.frame_counter_offset then ((counter >>> 0) % 256) <<< 4
    else if i = g.frame_counter_offset + 1 then ((counter >>> 8) % 256) <<< 4
    else if i = g.frame_counter_offset + 2 then ((counter >>> 16) % 256) <<< 4
    else if i = g.frame_counter_offset + 3 then ((counter >>> 24) % 256) <<< 4
    else if i = g.frame_record_flag_offset then (if flag then frame_record_flag_value else 0)
    else 0)

/-- Bounds and size invariant of a geometry record (claim C8). -/
def geomInvariant (g : IsxGeometry) : Prop :=
  g.isx_header_offset < g.stream_height ∧
  g.isx_footer_offset < g.stream_height ∧
  g.header_row_with_meta < g.stream_height ∧
  g.frame_counter_offset + 3 < g.stream_width ∧
  g.frame_record_flag_offset < g.stream_width ∧
  g.frame_size_in_bytes = g.frame_width * g.frame_height

instance : DecidablePred geomInvariant := fun g => by
  unfold geomInvariant; infer_instance

/-- geomInvariant lifted to the Option result of isx_set_defaults. -/
def geomInvariantOpt : Option IsxGeometry → Bool
  | none => false
  | some g => decide (geomInvariant g)

/-- Byte length of a captured buffer: two bytes per 16-bit sample. -/
def bufferBytes (b : List (List Nat)) : Nat := 2 * (b.map List.length).sum

/-- A buffer of the wrong byte length (1280 bytes instead of 1044480) whose
metadata row is nevertheless present and well formed. -/
def shortBuf : List (List Nat) := [[], encodeMetaRow g2 1 true]

/-- Concrete buffer with a recording frame, used to witness the sync gate. -/
def cbuf7 : List (List Nat) := [[], encodeMetaRow g2 5 true]

/-- Concrete buffer with a non-recording frame, used to witness suppression. -/
def cbuf10 : List (List Nat) := [[], encodeMetaRow g2 7 false]

lemma observe_snd (prev curr : Nat) (r : Bool) : (observe prev curr r).2 = curr := by
  unfold observe
  split <;> rfl

/-- Claim C1: for downsample factor 2 the geometry computation produces
exactly stream_width 640, stream_height 408, frame_width 1280, frame_height
816, frame_size_in_bytes 1044480, header offset 4, footer offset 404,
metadata row index 1, counter field offset 618 and flag field offset 617. -/
theorem c1_geometry_ds2 :
    isx_set_defaults 2 = some ⟨640, 408, 1280, 816, 1044480, 4, 404, 1, 618, 617⟩ := by
  decide

/-- Claim C2 (refuted, code bug): the source evaluates the counter
expression on numpy uint16 scalars, so the terms shifted by 16 and 24 are
truncated away.  On the sample quadruple (0, 0, 0, 0x10) the code yields 0
while the exact unsigned 32-bit formula of the spec yields 2 to the 24. -/
theorem c2_counter_truncated :
    numpyCounter 0 0 0 16 = 0 ∧ specCounter 0 0 0 16 = 16777216 := by
  decide

/-- Claim C3, counterexample: with previous sequence id 65535 and observed
counter 0, the code reports no missing range although the previous id is
nonzero and the counter is not the successor of the previous id, because
prev + 1 wraps to 0 in uint16 arithmetic. -/
theorem c3_counterexample :
    (observe 65535 0 false).1.missing_frames_range = [] ∧
      (65535 : Nat) ≠ 0 ∧ (0 : Nat) ≠ 65535 + 1 := by
  decide

/-- Claim C3 as amended: the tracker starts at the sentinel 0, the first
observed counter never reports a missing range, and for every previous id
and counter below 2 to the 16 the missing range is empty exactly when the
previous id is 0 or the counter equals the successor of the previous id
computed modulo 2 to the 16; otherwise the range is the pair successor and
predecessor, both computed modulo 2 to the 16; the previous id is always
set to the observed counter. -/
theorem c3_tracker_mod_arith :
    (∀ c r, (observe 0 c r).1.missing_frames_range = [] ∧ (observe 0 c r).2 = c) ∧
      ∀ prev c r, prev < 65536 → c < 65536 →
        (observe prev c r).2 = c ∧
          (observe prev c r).1.missing_frames_range =
            (if prev = 0 ∨ c = (prev + 1) % 65536 then []
             else [(prev + 1) % 65536, (c + 65535) % 65536]) := by
  constructor
  · intro c r
    simp [observe]
  · intro prev c r hp hc
    refine ⟨observe_snd prev c r, ?_⟩
    by_cases h1 : prev = 0
    · simp [observe, u16, h1]
    · by_cases h2 : c = (prev + 1) % 65536
      · simp [observe, u16, h1, h2]
      · simp [observe, u16, h1, h2]

/-- Witness for claim C3: the amended statement applied to the observation
103 after 102 is skipped following 100, giving the missing range 101, 102. -/
theorem c3_tracker_mod_arith_witness :
    (observe 100 103 false).2 = 103 ∧
      (observe 100 103 false).1.missing_frames_range =
        (if (100 : Nat) = 0 ∨ (103 : Nat) = (100 + 1) % 65536 then []
         else [(100 + 1) % 65536, (103 + 65535) % 65536]) :=
  c3_tracker_mod_arith.2 100 103 false (by decide) (by decide)

/-- Claim C4, counterexample: a buffer of 1280 bytes, far from the expected
frame_size_in_bytes 1044480, is not rejected with any typed error: with the
sync gate disabled get_frame processes it and returns a frame. -/
theorem c4_counterexample :
    bufferBytes shortBuf ≠ g2.frame_size_in_bytes ∧
      (get_frame ⟨false, false⟩ g2 initState (some shortBuf)).2.2.isSome = true := by
  decide

/-- Claim C4 as amended: the code performs no buffer-length validation and
has no typed ShortBuffer error.  With sync disabled, any captured buffer
whose metadata row index is in range is processed and delivered, whatever
its byte length; a buffer without the metadata row only triggers the caught
IndexError and the None, None sentinel of a failed read, with the state
unchanged. -/
theorem c4_no_length_check :
    (∀ (st : ScopeState) (buf : List (List Nat)),
        g2.header_row_with_meta < buf.length →
        (get_frame ⟨false, false⟩ g2 st (some buf)).2.2.isSome = true) ∧
      ∀ (cfg : IsxConfig) (st : ScopeState) (buf : List (List Nat)),
        buf.length ≤ g2.header_row_with_meta →
        get_frame cfg g2 st (some buf) = (st, none, none) := by
  constructor
  · intro st buf h
    simp [get_frame, h]
  · intro cfg st buf h
    simp [get_frame, Nat.not_lt.mpr h]

/-- Witness for claim C4: a two-row buffer with an empty metadata row is
delivered when sync is disabled. -/
theorem c4_no_length_check_witness :
    (get_frame ⟨false, false⟩ g2 initState (some [[], []])).2.2.isSome = true :=
  c4_no_length_check.1 initState [[], []] (by decide)

/-- Claim C5, counterexample: 3 does not divide 1280, yet the geometry
computation silently succeeds for factor 3 instead of failing with a typed
InvalidFactor error. -/
theorem c5_counterexample :
    ¬(3 ∣ 1280) ∧ (isx_set_defaults 3).isSome = true := by
  decide

/-- Claim C5 as amended: the code has no InvalidFactor error and performs no
divisibility validation: every factor between 1 and 1280 produces a
geometry through floor division, and factor 0 only raises an uncaught
ZeroDivisionError (modelled as none). -/
theorem c5_no_validation :
    (∀ ds, 1 ≤ ds → ds ≤ 1280 → (isx_set_defaults ds).isSome = true) ∧
      isx_set_defaults 0 = none := by
  constructor
  · intro ds h1 h2
    have hne : ds ≠ 0 := by omega
    have hw : (1280 : Nat) / ds ≠ 0 := by
      have : 0 < 1280 / ds := Nat.div_pos h2 (by omega)
      omega
    simp [isx_set_defaults, hne, hw]
  · rfl

/-- Witness for claim C5: factor 6, which divides neither 1280 nor 800
evenly, still yields a geometry. -/
theorem c5_no_validation_witness : (isx_set_defaults 6).isSome = true :=
  c5_no_validation.1 6 (by decide) (by decide)

/-- Claim C6 (refuted, code bug): encoding counter 65536 with the recording
flag set and decoding the resulting synthetic row yields sequence id 0, not
65536, because the uint16 arithmetic drops the counter bits at and above 2
to the 16; the flag itself is recovered correctly. -/
theorem c6_roundtrip_fails :
    (update_frame_stats g2 initState (encodeMetaRow g2 65536 true)).1.frame_statistics.seq_id
        = 0 ∧
      (update_frame_stats g2 initState (encodeMetaRow g2 65536 true)).2 = true := by
  decide

/-- Claim C7: with sync_with_recording disabled every successfully read and
decodable frame is delivered, and with it enabled a frame is delivered if
and only if the sample at the flag field offset equals the sentinel 0xAD0. -/
theorem c7_sync_gate (fs : Bool) (g : IsxGeometry) (st : ScopeState)
    (buf : List (List Nat))
    (hm : g.header_row_with_meta < buf.length)
    (hc : g.frame_counter_offset + 3 < (buf.getD g.header_row_with_meta []).length)
    (hf : g.frame_record_flag_offset < (buf.getD g.header_row_with_meta []).length) :
    (get_frame ⟨false, fs⟩ g st (some buf)).2.2.isSome = true ∧
      ((get_frame ⟨true, fs⟩ g st (some buf)).2.2.isSome = true ↔
        (buf.getD g.header_row_with_meta []).getD g.frame_record_flag_offset 0 =
          frame_record_flag_value) := by
  simp only [List.getD_eq_getElem?_getD, List.getElem?_eq_getElem hm, Option.getD_some]
    at hc hf ⊢
  constructor
  · simp [get_frame, hm, update_frame_stats, hc, hf]
  · by_cases hb : buf[g.header_row_with_meta][g.frame_record_flag_offset] =
        frame_record_flag_value
    · simp [get_frame, hm, update_frame_stats, hc, hf, hb]
    · simp [get_frame, hm, update_frame_stats, hc, hf, hb]

/-- Witness for claim C7: a concrete recording frame is delivered in both
sync modes, and the flag sample of its metadata row equals the sentinel. -/
theorem c7_sync_gate_witness :
    (get_frame ⟨false, false⟩ g2 initState (some cbuf7)).2.2.isSome = true ∧
      ((get_frame ⟨true, false⟩ g2 initState (some cbuf7)).2.2.isSome = true ↔
        (cbuf7.getD g2.header_row_with_meta []).getD g2.frame_record_flag_offset 0 =
          frame_record_flag_value) :=
  c7_sync_gate false g2 initState cbuf7 (by decide) (by decide) (by decide)

/-- Claim C8: for every downsample factor dividing both 1280 and 800 the
computed geometry keeps the header, footer and metadata row indices below
the stream height, the counter and flag field offsets (including the three
samples after the counter offset) below the stream width, and the frame
byte size equal to the product of frame width and frame height. -/
theorem c8_geometry_invariants (ds : Nat) (h1 : ds ∣ 1280) (h2 : ds ∣ 800) :
    geomInvariantOpt (isx_set_defaults ds) = true := by
  have hg : ds ∣ Nat.gcd 1280 800 := Nat.dvd_gcd h1 h2
  have hgcd : Nat.gcd 1280 800 = 160 := by decide
  rw [hgcd] at hg
  have hle : ds ≤ 160 := Nat.le_of_dvd (by norm_num) hg
  have hmod : 160 % ds = 0 := Nat.mod_eq_zero_of_dvd hg
  have key : ∀ d, d < 161 → 160 % d = 0 →
      geomInvariantOpt (isx_set_defaults d) = true := by decide
  exact key ds (by omega) hmod

/-- Witness for claim C8: the invariant holds for the default factor 2. -/
theorem c8_geometry_invariants_witness :
    geomInvariantOpt (isx_set_defaults 2) = true :=
  c8_geometry_invariants 2 (by norm_num) (by norm_num)

/-- Claim C9: when one of the five metadata reads is out of bounds (for
example the header row is shorter than counter offset plus four), the
raised IndexError is caught, update_frame_stats returns False and both
prev_frame_seq_id and the stored frame_statistics are left unchanged. -/
theorem c9_short_row_leaves_state (g : IsxGeometry) (st : ScopeState) (row : List Nat)
    (h : ¬(g.frame_counter_offset + 3 < row.length ∧
        g.frame_record_flag_offset < row.length)) :
    update_frame_stats g st row = (st, false) := by
  simp [update_frame_stats, h]

/-- Witness for claim C9: the empty header row leaves the initial state
untouched and reports not recording. -/
theorem c9_short_row_leaves_state_witness :
    update_frame_stats g2 initState [] = (initState, false) :=
  c9_short_row_leaves_state g2 initState [] (by decide)

/-- Claim C10: a frame suppressed by the sync gate (sync enabled, flag
sample different from the sentinel) still updates prev_frame_seq_id to the
decoded counter of that frame, writes nothing to the storage file even with
file storage enabled, and delivers nothing. -/
theorem c10_suppressed_frame (g : IsxGeometry) (st : ScopeState) (buf : List (List Nat))
    (hm : g.header_row_with_meta < buf.length)
    (hc : g.frame_counter_offset + 3 < (buf.getD g.header_row_with_meta []).length)
    (hf : g.frame_record_flag_offset < (buf.getD g.header_row_with_meta []).length)
    (hflag : (buf.getD g.header_row_with_meta []).getD g.frame_record_flag_offset 0 ≠
        frame_record_flag_value) :
    (get_frame ⟨true, true⟩ g st (some buf)).1.prev_frame_seq_id =
        numpyCounter ((buf.getD g.header_row_with_meta []).getD g.frame_counter_offset 0)
          ((buf.getD g.header_row_with_meta []).getD (g.frame_counter_offset + 1) 0)
          ((buf.getD g.header_row_with_meta []).getD (g.frame_counter_offset + 2) 0)
          ((buf.getD g.header_row_with_meta []).getD (g.frame_counter_offset + 3) 0) ∧
      (get_frame ⟨true, true⟩ g st (some buf)).2.1 = none ∧
      (get_frame ⟨true, true⟩ g st (some buf)).2.2 = none := by
  simp only [List.getD_eq_getElem?_getD, List.getElem?_eq_getElem hm, Option.getD_some]
    at hc hf hflag ⊢
  rw [List.getElem?_eq_getElem hf, Option.getD_some] at hflag
  refine ⟨?_, ?_, ?_⟩ <;>
    simp [get_frame, hm, update_frame_stats, hc, hf, hflag, observe_snd]

/-- Witness for claim C10: a concrete non-recording frame is suppressed,
nothing is written to storage, and the tracker remembers its counter. -/
theorem c10_suppressed_frame_witness :
    (get_frame ⟨true, true⟩ g2 initState (some cbuf10)).1.prev_frame_seq_id =
        numpyCounter ((cbuf10.getD g2.header_row_with_meta []).getD g2.frame_counter_offset 0)
          ((cbuf10.getD g2.header_row_with_meta []).getD (g2.frame_counter_offset + 1) 0)
          ((cbuf10.getD g2.header_row_with_meta []).getD (g2.frame_counter_offset + 2) 0)
          ((cbuf10.getD g2.header_row_with_meta []).getD (g2.frame_counter_offset + 3) 0) ∧
      (get_frame ⟨true, true⟩ g2 initState (some cbuf10)).2.1 = none ∧
      (get_frame ⟨true, true⟩ g2 initState (some cbuf10)).2.2 = none :=
  c10_suppressed_frame g2 initState cbuf10 (by decide) (by decide) (by decide) (by decide)

end IsxStream
